import Mathlib

/-!
Verification of the embedded-etcd test fixture in `channeldb/kvdb/etcd/embed.go`:
a free-port allocator (`getFreePort`) driven by a process-wide atomic cursor
(`lastPort`), and `NewEmbeddedEtcdInstance`, which allocates a client and a peer
port, builds an etcd startup configuration, launches the instance, waits for
readiness with a fixed timeout, and returns a connection descriptor plus a
teardown closure.

The OS and the etcd library are external collaborators; they are modelled as
oracle functions (`NetEnv`, `Env`): whether a listen/close on an address
succeeds, whether the synchronous launch fails, and whether the readiness
notification arrives before the timeout.  Side effects relevant to the
specification (starting, closing, context creation and cancellation) are
recorded in an event trace, and the ports and startup configuration the call
used are recorded as observation fields of the result.
-/

namespace EtcdEmbed

/-- Go's `uint32` modulus: `atomic.AddUint32` wraps at `2^32`. -/
def U32 : Nat := 4294967296

/-- The constant `defaultEtcdPort = 2379` from `embed.go`: the initial value of
the port cursor `lastPort`. -/
def defaultEtcdPort : Nat := 2379

/-- The constant `readyTimeout = 10 * time.Second` from `embed.go`, in
nanoseconds (Go's `time.Duration` unit). -/
def readyTimeout : Nat := 10 * 1000000000

/-- Rendering of a whole-second Go `time.Duration` by `fmt`'s `%v` verb, as used
in the timeout error message (`10 * time.Second` prints as `"10s"`). -/
def durString (ns : Nat) : String := Nat.repr (ns / 1000000000) ++ "s"

/-- Oracle for the OS networking calls made by `getFreePort`: whether
`net.Listen("tcp4", addr)` succeeds on a given address string and whether the
subsequent `l.Close()` succeeds. -/
structure NetEnv where
  listenOk : String → Bool
  closeOk : String → Bool

/-- The address string `fmt.Sprintf("127.0.0.1:%d", port)` built by
`getFreePort`. -/
def addrString (port : Nat) : String := "127.0.0.1:" ++ Nat.repr port

/-- One probe of `getFreePort`'s loop body: `net.Listen("tcp4", addr)` succeeds
and the immediate `l.Close()` succeeds; only then is the port returned. -/
def probeOk (env : NetEnv) (port : Nat) : Bool :=
  env.listenOk (addrString port) && env.closeOk (addrString port)

/-- The loop of `getFreePort` (`for port < 65535 { probe; port = add(...) }`).
The loop guard `port < 65535` is encoded structurally: `gap` is `65535 - port`,
so `gap = 0` is exactly the exit (panic) case and each failed probe recurses
with the next candidate `(port + 1) % U32` (the wrapped `atomic.AddUint32`)
and `gap - 1`.  The second component of the value is the final value of the
shared cursor `lastPort` (equal to the last candidate drawn). -/
def getFreePortLoop (env : NetEnv) : Nat → Nat → Option Nat × Nat
  | 0, port => (none, port)
  | gap + 1, port =>
      if probeOk env port then (some port, port)
      else getFreePortLoop env gap ((port + 1) % U32)

/-- `getFreePort` from `embed.go`, as a function of the environment and of the
current cursor value `last` (the global `lastPort`).  The first candidate is
the incremented cursor `(last + 1) % U32`; the result is `(some port, cursor)`
on success and `(none, cursor)` for the panic path ("no ports available for
listening"). -/
def getFreePort (env : NetEnv) (last : Nat) : Option Nat × Nat :=
  getFreePortLoop env (65535 - ((last + 1) % U32)) ((last + 1) % U32)

/-- Success characterization of the loop: under the guard invariant
`port + gap = 65535`, a `some` result is the first candidate from `port`
upwards whose probe succeeds, it is below 65535, and the cursor stops at it. -/
theorem getFreePortLoop_some (env : NetEnv) :
    ∀ gap port p last2, port + gap = 65535 →
      getFreePortLoop env gap port = (some p, last2) →
      probeOk env p = true ∧ port ≤ p ∧ p < 65535 ∧ last2 = p ∧
        (∀ q, port ≤ q → q < p → probeOk env q = false) := by
  intro gap
  induction gap with
  | zero =>
      intro port p last2 _ h
      simp [getFreePortLoop] at h
  | succ g ih =>
      intro port p last2 hinv h
      rw [getFreePortLoop] at h
      by_cases hp : probeOk env port = true
      · rw [if_pos hp] at h
        obtain ⟨h1, h2⟩ := Prod.mk.injEq .. ▸ h
        obtain rfl : port = p := Option.some.injEq .. ▸ h1
        refine ⟨hp, le_refl _, by omega, h2.symm, ?_⟩
        intro q hq1 hq2; omega
      · rw [if_neg hp] at h
        have hlt : port + 1 < U32 := by
          unfold U32; omega
        rw [Nat.mod_eq_of_lt hlt] at h
        have := ih (port + 1) p last2 (by omega) h
        obtain ⟨c1, c2, c3, c4, c5⟩ := this
        refine ⟨c1, by omega, c3, c4, ?_⟩
        intro q hq1 hq2
        rcases Nat.eq_or_lt_of_le hq1 with rfl | hgt
        · simpa using hp
        · exact c5 q (by omega) hq2

/-- Failure characterization of the loop: under the guard invariant, a `none`
result means every candidate from `port` up to 65534 failed its probe, and the
cursor has reached 65535. -/
theorem getFreePortLoop_none (env : NetEnv) :
    ∀ gap port last2, port + gap = 65535 →
      getFreePortLoop env gap port = (none, last2) →
      last2 = 65535 ∧ ∀ q, port ≤ q → q < 65535 → probeOk env q = false := by
  intro gap
  induction gap with
  | zero =>
      intro port last2 hinv h
      simp [getFreePortLoop] at h
      constructor
      · omega
      · intro q hq1 hq2; omega
  | succ g ih =>
      intro port last2 hinv h
      rw [getFreePortLoop] at h
      by_cases hp : probeOk env port = true
      · rw [if_pos hp] at h
        simp at h
      · rw [if_neg hp] at h
        have hlt : port + 1 < U32 := by
          unfold U32; omega
        rw [Nat.mod_eq_of_lt hlt] at h
        obtain ⟨c1, c2⟩ := ih (port + 1) last2 (by omega) h
        refine ⟨c1, ?_⟩
        intro q hq1 hq2
        rcases Nat.eq_or_lt_of_le hq1 with rfl | hgt
        · simpa using hp
        · exact c2 q (by omega) hq2

/-- Wrapper-level success characterization of `getFreePort`: the returned port
is the first candidate at or above the incremented cursor whose probe succeeds,
it is below 65535, and the final cursor equals the returned port. -/
theorem getFreePort_some (env : NetEnv) (last p last2 : Nat)
    (h : getFreePort env last = (some p, last2)) :
    probeOk env p = true ∧ (last + 1) % U32 ≤ p ∧ p < 65535 ∧ last2 = p ∧
      (∀ q, (last + 1) % U32 ≤ q → q < p → probeOk env q = false) := by
  unfold getFreePort at h
  set start := (last + 1) % U32 with hstart
  by_cases hle : start ≤ 65535
  · exact getFreePortLoop_some env (65535 - start) start p last2 (by omega) h
  · have : 65535 - start = 0 := by omega
    rw [this] at h
    simp [getFreePortLoop] at h

/-- Wrapper-level failure characterization of `getFreePort`: on the panic path
every candidate from the incremented cursor up to 65534 failed its probe. -/
theorem getFreePort_none (env : NetEnv) (last last2 : Nat)
    (h : getFreePort env last = (none, last2)) :
    ∀ q, (last + 1) % U32 ≤ q → q < 65535 → probeOk env q = false := by
  unfold getFreePort at h
  set start := (last + 1) % U32 with hstart
  by_cases hle : start ≤ 65535
  · exact (getFreePortLoop_none env (65535 - start) start last2 (by omega) h).2
  · intro q hq1 hq2; omega

/-- The cursor strictly advances on any call that does not wrap the `uint32`
increment: its final value exceeds the initial value. -/
theorem getFreePort_cursor_advances (env : NetEnv) (last : Nat)
    (hw : last + 1 < U32) : last < (getFreePort env last).2 := by
  unfold getFreePort
  rw [Nat.mod_eq_of_lt hw]
  rcases hres : getFreePortLoop env (65535 - (last + 1)) (last + 1) with ⟨res, last2⟩
  rcases res with _ | p
  · by_cases hle : last + 1 ≤ 65535
    · have := getFreePortLoop_none env (65535 - (last + 1)) (last + 1) last2 (by omega) hres
      simp only
      omega
    · have : 65535 - (last + 1) = 0 := by omega
      rw [this] at hres
      simp [getFreePortLoop] at hres
      simp only
      omega
  · by_cases hle : last + 1 ≤ 65535
    · have := getFreePortLoop_some env (65535 - (last + 1)) (last + 1) p last2 (by omega) hres
      simp only
      omega
    · have : 65535 - (last + 1) = 0 := by omega
      rw [this] at hres
      simp [getFreePortLoop] at hres

/-- A `net/url.URL` as used in `embed.go`: only the `Host` field is ever set
(`url.URL{Host: clientURL}`); all other fields keep their zero values and are
omitted. -/
structure URL where
  host : String
deriving DecidableEq

/-- The fields of etcd's `embed.Config` that `NewEmbeddedEtcdInstance` sets:
storage directory, transaction/request size ceilings and the two listen URL
lists. -/
structure EmbedConfig where
  dir : String
  maxTxnOps : Nat
  maxRequestBytes : Nat
  lcUrls : List URL
  lpUrls : List URL
deriving DecidableEq

/-- A cancellation context (`context.WithCancel`): the only observable state
needed here is whether it has been canceled. -/
structure Ctx where
  canceled : Bool
deriving DecidableEq

/-- The connection descriptor `BackendConfig` as constructed in `embed.go`
(fields `Ctx`, `Host`, `User`, `Pass`, `InsecureSkipVerify`; the struct is
declared elsewhere in the repository but every field the fixture sets appears
in the composite literal in `embed.go`). -/
structure BackendConfig where
  ctx : Ctx
  host : String
  user : String
  pass : String
  insecureSkipVerify : Bool
deriving DecidableEq

/-- Observable side effects of `NewEmbeddedEtcdInstance` and of its teardown
closure: launching the instance, closing it, creating the cancellation context
and canceling it. -/
inductive Ev where
  | startEtcd
  | closeEtcd
  | newCtx
  | cancelCtx
deriving DecidableEq

/-- The outcome of one `NewEmbeddedEtcdInstance` call: the three returned Go
values (`*BackendConfig`, cleanup `func()`, `error`), with the cleanup closure
represented by the event script it runs when invoked; plus the event trace of
the call itself, the final cursor value, and observations of the two allocated
ports and of the startup configuration passed to `embed.StartEtcd`. -/
structure Result where
  backend : Option BackendConfig
  teardown : Option (List Ev)
  err : Option String
  trace : List Ev
  cursor : Nat
  clientPort : Option Nat
  peerPort : Option Nat
  startCfg : Option EmbedConfig
deriving DecidableEq

/-- Oracle for the external collaborators of `NewEmbeddedEtcdInstance`: the OS
network calls, the result of `embed.StartEtcd` (`some e` is a launch error),
and whether `etcd.Server.ReadyNotify()` fires before the `readyTimeout` timer
in the `select`. -/
structure Env where
  net : NetEnv
  startEtcd : EmbedConfig → Option String
  readyInTime : Bool

/-- The startup configuration assembled on lines 59-70 of `embed.go`:
`cfg.Dir = path`, `cfg.MaxTxnOps = 8192`, `cfg.MaxRequestBytes = 16384*1024`,
and singleton client/peer listen URL lists on `127.0.0.1` at the two freshly
allocated ports. -/
def buildConfig (path : String) (clientPort peerPort : Nat) : EmbedConfig :=
  { dir := path
    maxTxnOps := 8192
    maxRequestBytes := 16384 * 1024
    lcUrls := [{ host := addrString clientPort }]
    lpUrls := [{ host := addrString peerPort }] }

/-- Result of the launch-failure path (`if err != nil` after `StartEtcd`):
`return nil, nil, err`, with nothing done after the failed launch. -/
def launchFailResult (cp pp last2 : Nat) (cfg : EmbedConfig) (e : String) : Result :=
  { backend := none
    teardown := none
    err := some e
    trace := [Ev.startEtcd]
    cursor := last2
    clientPort := some cp
    peerPort := some pp
    startCfg := some cfg }

/-- Result of the readiness-timeout path: `etcd.Close()` then
`return nil, nil, fmt.Errorf("etcd failed to start after: %v", readyTimeout)`. -/
def timeoutResult (cp pp last2 : Nat) (cfg : EmbedConfig) : Result :=
  { backend := none
    teardown := none
    err := some ("etcd failed to start after: " ++ durString readyTimeout)
    trace := [Ev.startEtcd, Ev.closeEtcd]
    cursor := last2
    clientPort := some cp
    peerPort := some pp
    startCfg := some cfg }

/-- Result of the success path: a fresh uncanceled context, the descriptor
with `Host = "http://" + peerURL`, literal credentials and
`InsecureSkipVerify: true`, and a teardown closure running `cancel()` then
`etcd.Close()`. -/
def successResult (cp pp last2 : Nat) (cfg : EmbedConfig) : Result :=
  { backend := some
      { ctx := { canceled := false }
        host := "http://" ++ addrString pp
        user := "user"
        pass := "pass"
        insecureSkipVerify := true }
    teardown := some [Ev.cancelCtx, Ev.closeEtcd]
    err := none
    trace := [Ev.startEtcd, Ev.newCtx]
    cursor := last2
    clientPort := some cp
    peerPort := some pp
    startCfg := some cfg }

/-- `NewEmbeddedEtcdInstance` from `embed.go`, as a function of the oracle
environment, the caller's storage path and the current cursor value.  `none`
models the call panicking inside `getFreePort` (port exhaustion); otherwise
the result records the returned values and the observable effects. -/
def NewEmbeddedEtcdInstance (env : Env) (path : String) (last : Nat) :
    Option Result :=
  match getFreePort env.net last with
  | (none, _) => none
  | (some cp, last1) =>
    match getFreePort env.net last1 with
    | (none, _) => none
    | (some pp, last2) =>
      match env.startEtcd (buildConfig path cp pp) with
      | some e => some (launchFailResult cp pp last2 (buildConfig path cp pp) e)
      | none =>
        if env.readyInTime then
          some (successResult cp pp last2 (buildConfig path cp pp))
        else
          some (timeoutResult cp pp last2 (buildConfig path cp pp))

/-- Case analysis of a non-panicking `NewEmbeddedEtcdInstance` call: the two
ports come from two successive `getFreePort` calls (each leaving the cursor at
the port it returned), the startup configuration is built from them, and the
result is exactly one of the launch-failure, timeout and success records. -/
theorem NewEmbeddedEtcdInstance_cases (env : Env) (path : String) (last : Nat)
    (r : Result) (h : NewEmbeddedEtcdInstance env path last = some r) :
    ∃ cp pp,
      getFreePort env.net last = (some cp, cp) ∧
      getFreePort env.net cp = (some pp, pp) ∧
      ((∃ e, env.startEtcd (buildConfig path cp pp) = some e ∧
          r = launchFailResult cp pp pp (buildConfig path cp pp) e) ∨
       (env.startEtcd (buildConfig path cp pp) = none ∧ env.readyInTime = true ∧
          r = successResult cp pp pp (buildConfig path cp pp)) ∨
       (env.startEtcd (buildConfig path cp pp) = none ∧ env.readyInTime = false ∧
          r = timeoutResult cp pp pp (buildConfig path cp pp))) := by
  unfold NewEmbeddedEtcdInstance at h
  split at h
  · exact Option.noConfusion h
  rename_i _ cp last1 h1
  split at h
  · exact Option.noConfusion h
  rename_i _ pp last2 h2
  have e1 := (getFreePort_some env.net last cp last1 h1).2.2.2.1
  rw [e1] at h1 h2
  have e2 := (getFreePort_some env.net cp pp last2 h2).2.2.2.1
  rw [e2] at h2 h
  refine ⟨cp, pp, h1, h2, ?_⟩
  split at h
  · rename_i _ e h3
    exact Or.inl ⟨e, h3, (Option.some.injEq .. ▸ h).symm⟩
  · rename_i _ h3
    by_cases h4 : env.readyInTime
    · rw [if_pos h4] at h
      exact Or.inr (Or.inl ⟨h3, by simpa using h4, (Option.some.injEq .. ▸ h).symm⟩)
    · rw [if_neg h4] at h
      exact Or.inr (Or.inr ⟨h3, by simpa using h4, (Option.some.injEq .. ▸ h).symm⟩)

/-- State of one goroutine executing `getFreePort`: still probing, returned
with a port, or on the panic path (its candidate reached 65535). -/
inductive TState where
  | running
  | done (port : Nat)
  | panicked
deriving DecidableEq

/-- Shared state of `n` goroutines concurrently calling `getFreePort`: the
process-wide cursor `lastPort` plus each goroutine's state.  The cursor is the
only shared mutable datum, exactly as in the source. -/
structure AllocState (n : Nat) where
  cursor : Nat
  threads : Fin n → TState

/-- Outcome of one loop iteration of `getFreePort` for the candidate `c` just
drawn from the cursor: exit the loop with the port on a successful probe, keep
looping on a failed probe, and reach the panic path when the guard `c < 65535`
fails. -/
def iterOutcome (env : NetEnv) (c : Nat) : TState :=
  if c < 65535 then
    if probeOk env c then TState.done c else TState.running
  else TState.panicked

/-- One scheduled step of goroutine `t`: one `atomic.AddUint32(&lastPort, 1)`
(the sole synchronization point) followed by that goroutine's private loop
guard and probe.  Scheduling a finished goroutine changes nothing. -/
def allocStep (env : NetEnv) {n : Nat} (s : AllocState n) (t : Fin n) :
    AllocState n :=
  if s.threads t = TState.running then
    { cursor := (s.cursor + 1) % U32
      threads := fun u =>
        if u = t then iterOutcome env ((s.cursor + 1) % U32) else s.threads u }
  else s

/-- An interleaved execution: the schedule lists which goroutine takes the
next atomic increment. -/
def allocRun (env : NetEnv) {n : Nat} (sched : List (Fin n))
    (s : AllocState n) : AllocState n :=
  sched.foldl (allocStep env) s

/-- Initial state: cursor at `c0`, every goroutine still running. -/
def initAlloc (n : Nat) (c0 : Nat) : AllocState n :=
  { cursor := c0, threads := fun _ => TState.running }

/-- Invariant: every port already handed out is at most the cursor. -/
def PortsBounded {n : Nat} (s : AllocState n) : Prop :=
  ∀ t p, s.threads t = TState.done p → p ≤ s.cursor

/-- Invariant: ports handed out to distinct goroutines are distinct. -/
def PortsDistinct {n : Nat} (s : AllocState n) : Prop :=
  ∀ t u p q, t ≠ u → s.threads t = TState.done p →
    s.threads u = TState.done q → p ≠ q

/-- An iteration can only hand out the candidate it drew. -/
theorem iterOutcome_done (env : NetEnv) (c p : Nat)
    (h : iterOutcome env c = TState.done p) : p = c := by
  unfold iterOutcome at h
  by_cases h1 : c < 65535
  · rw [if_pos h1] at h
    by_cases h2 : probeOk env c = true
    · rw [if_pos h2] at h
      cases h
      rfl
    · rw [if_neg h2] at h
      exact absurd h (by simp)
  · rw [if_neg h1] at h
    exact absurd h (by simp)

/-- One step preserves both invariants and advances the cursor by at most one
(and never backwards), provided the increment does not wrap. -/
theorem allocStep_inv (env : NetEnv) {n : Nat} (s : AllocState n) (t : Fin n)
    (hw : s.cursor + 1 < U32) (hb : PortsBounded s) (hd : PortsDistinct s) :
    PortsBounded (allocStep env s t) ∧ PortsDistinct (allocStep env s t) ∧
      s.cursor ≤ (allocStep env s t).cursor ∧
      (allocStep env s t).cursor ≤ s.cursor + 1 := by
  by_cases hst : s.threads t = TState.running
  · have hc : (s.cursor + 1) % U32 = s.cursor + 1 := Nat.mod_eq_of_lt hw
    unfold allocStep
    rw [if_pos hst]
    simp only [hc]
    refine ⟨?_, ?_, Nat.le_succ _, Nat.le_refl _⟩
    · intro u p hu
      dsimp only
      simp only at hu
      by_cases hut : u = t
      · rw [if_pos hut] at hu
        have := iterOutcome_done env (s.cursor + 1) p hu
        omega
      · rw [if_neg hut] at hu
        have := hb u p hu
        omega
    · intro t1 t2 p q hne h1 h2
      simp only at h1 h2
      by_cases ht1 : t1 = t
      · have ht2 : t2 ≠ t := by
          intro hh
          exact hne (by rw [ht1, hh])
        rw [if_pos ht1] at h1
        rw [if_neg ht2] at h2
        have hp := iterOutcome_done env (s.cursor + 1) p h1
        have hq := hb t2 q h2
        omega
      · rw [if_neg ht1] at h1
        by_cases ht2 : t2 = t
        · rw [if_pos ht2] at h2
          have hq := iterOutcome_done env (s.cursor + 1) q h2
          have hp := hb t1 p h1
          omega
        · rw [if_neg ht2] at h2
          exact hd t1 t2 p q hne h1 h2
  · unfold allocStep
    rw [if_neg hst]
    exact ⟨hb, hd, le_refl _, by omega⟩

/-- Any interleaved execution short enough not to wrap the `uint32` cursor
preserves both invariants. -/
theorem allocRun_inv (env : NetEnv) {n : Nat} :
    ∀ (sched : List (Fin n)) (s : AllocState n),
      s.cursor + sched.length < U32 → PortsBounded s → PortsDistinct s →
      PortsBounded (allocRun env sched s) ∧
        PortsDistinct (allocRun env sched s) := by
  intro sched
  induction sched with
  | nil =>
      intro s _ hb hd
      exact ⟨hb, hd⟩
  | cons t rest ih =>
      intro s hw hb hd
      have hlen : (t :: rest).length = rest.length + 1 := by simp
      have hw1 : s.cursor + 1 < U32 := by
        rw [hlen] at hw
        omega
      obtain ⟨hb', hd', _, hle⟩ := allocStep_inv env s t hw1 hb hd
      have hw' : (allocStep env s t).cursor + rest.length < U32 := by
        rw [hlen] at hw
        omega
      have hrec := ih (allocStep env s t) hw' hb' hd'
      simpa [allocRun] using hrec

/-- The host address the descriptor is derived from: the single peer-listen
URL of the startup configuration (`cfg.LPUrls`). -/
def peerAddr (cfg : EmbedConfig) : String :=
  (cfg.lpUrls.headD { host := "" }).host

/-- Test network in which every loopback port is free and every close
succeeds. -/
def netAllFree : NetEnv :=
  { listenOk := fun _ => true, closeOk := fun _ => true }

/-- Test network in which no listen ever succeeds (all ports busy). -/
def netNoneFree : NetEnv :=
  { listenOk := fun _ => false, closeOk := fun _ => true }

/-- Test environment: free network, launch succeeds, readiness arrives in
time. -/
def envGood : Env :=
  { net := netAllFree, startEtcd := fun _ => none, readyInTime := true }

/-- Test environment: free network, launch succeeds, readiness never arrives
within the bound. -/
def envTimeout : Env :=
  { net := netAllFree, startEtcd := fun _ => none, readyInTime := false }

/-- Test environment: free network, the synchronous launch fails. -/
def envLaunchFail : Env :=
  { net := netAllFree, startEtcd := fun _ => some "etcdserver: failure",
    readyInTime := true }

/-- The descriptor produced by `envGood` starting from the initial cursor. -/
def backendGood : BackendConfig :=
  { ctx := { canceled := false }, host := "http://127.0.0.1:2381",
    user := "user", pass := "pass", insecureSkipVerify := true }

/-- C1: every successful `NewEmbeddedEtcdInstance` call returns a descriptor
whose host is exactly `"http://"` prepended to the peer listen address placed
in the startup configuration's peer-listen URL (not the client address), with
username `"user"`, password `"pass"` and `insecureSkipVerify` true. -/
theorem descriptor_matches_peer_listen_address
    (env : Env) (path : String) (last : Nat) (r : Result) (b : BackendConfig)
    (cfg : EmbedConfig)
    (h : NewEmbeddedEtcdInstance env path last = some r)
    (hb : r.backend = some b) (hcfg : r.startCfg = some cfg) :
    b.host = "http://" ++ peerAddr cfg ∧ b.user = "user" ∧ b.pass = "pass" ∧
      b.insecureSkipVerify = true := by
  obtain ⟨cp, pp, h1, h2, hcase⟩ :=
    NewEmbeddedEtcdInstance_cases env path last r h
  rcases hcase with ⟨e, hs, rfl⟩ | ⟨hs, hr, rfl⟩ | ⟨hs, hr, rfl⟩
  · exact absurd hb (by simp [launchFailResult])
  · simp only [successResult] at hb hcfg
    injection hb with hb
    injection hcfg with hcfg
    subst hb
    subst hcfg
    simp [peerAddr, buildConfig]
  · exact absurd hb (by simp [timeoutResult])

/-- Witness for C1 at a concrete environment and input. -/
theorem descriptor_matches_peer_listen_address_witness :
    backendGood.host = "http://" ++ peerAddr (buildConfig "d" 2380 2381) ∧
      backendGood.user = "user" ∧ backendGood.pass = "pass" ∧
      backendGood.insecureSkipVerify = true :=
  descriptor_matches_peer_listen_address envGood "d" 2379
    (successResult 2380 2381 2381 (buildConfig "d" 2380 2381)) backendGood
    (buildConfig "d" 2380 2381) (by decide) (by decide) (by decide)

/-- C2: when the instance launches but the readiness notification loses the
race against the fixed timeout, the instance is closed before returning, the
error message names the elapsed bound (`readyTimeout`, printed as `10s`), and
both the descriptor and the teardown handle are nil. -/
theorem timeout_closes_instance_and_reports_bound
    (env : Env) (path : String) (last : Nat) (r : Result) (cfg : EmbedConfig)
    (h : NewEmbeddedEtcdInstance env path last = some r)
    (hcfg : r.startCfg = some cfg) (hstart : env.startEtcd cfg = none)
    (hready : env.readyInTime = false) :
    Ev.closeEtcd ∈ r.trace ∧
      r.err = some ("etcd failed to start after: " ++ durString readyTimeout) ∧
      r.backend = none ∧ r.teardown = none := by
  obtain ⟨cp, pp, h1, h2, hcase⟩ :=
    NewEmbeddedEtcdInstance_cases env path last r h
  rcases hcase with ⟨e, hs, rfl⟩ | ⟨hs, hr, rfl⟩ | ⟨hs, hr, rfl⟩
  · simp only [launchFailResult] at hcfg
    injection hcfg with hcfg
    subst hcfg
    rw [hstart] at hs
    exact Option.noConfusion hs
  · rw [hready] at hr
    exact Bool.noConfusion hr
  · simp [timeoutResult]

/-- Witness for C2 at a concrete environment and input. -/
theorem timeout_closes_instance_and_reports_bound_witness :
    Ev.closeEtcd ∈
        (timeoutResult 2380 2381 2381 (buildConfig "d" 2380 2381)).trace ∧
      (timeoutResult 2380 2381 2381 (buildConfig "d" 2380 2381)).err =
        some ("etcd failed to start after: " ++ durString readyTimeout) ∧
      (timeoutResult 2380 2381 2381 (buildConfig "d" 2380 2381)).backend =
        none ∧
      (timeoutResult 2380 2381 2381 (buildConfig "d" 2380 2381)).teardown =
        none :=
  timeout_closes_instance_and_reports_bound envTimeout "d" 2379
    (timeoutResult 2380 2381 2381 (buildConfig "d" 2380 2381))
    (buildConfig "d" 2380 2381) (by decide) (by decide) (by decide) (by decide)

/-- C3: `getFreePort` reaches the panic path (`none`) exactly when every
candidate from the incremented cursor up to the last probed port 65534 fails
its bind-and-close probe, and a returned port is never invalid: it is always
at most 65534. -/
theorem allocator_fatal_iff_exhausted_and_port_valid (env : NetEnv)
    (last : Nat) :
    ((getFreePort env last).1 = none ↔
      ∀ q, (last + 1) % U32 ≤ q → q < 65535 → probeOk env q = false) ∧
    (∀ p last2, getFreePort env last = (some p, last2) → p ≤ 65534) := by
  constructor
  · constructor
    · intro hnone q hq1 hq2
      rcases hres : getFreePort env last with ⟨res, l2⟩
      rw [hres] at hnone
      simp only at hnone
      subst hnone
      exact getFreePort_none env last l2 hres q hq1 hq2
    · intro hall
      rcases hres : getFreePort env last with ⟨res, l2⟩
      rcases res with _ | p
      · rfl
      · obtain ⟨hp, hge, hlt, _, _⟩ := getFreePort_some env last p l2 hres
        rw [hall p hge hlt] at hp
        exact Bool.noConfusion hp
  · intro p last2 hres
    have := (getFreePort_some env last p last2 hres).2.2.1
    omega

/-- C4: within one `NewEmbeddedEtcdInstance` call the client and peer ports
come from two separate successive `getFreePort` calls, and the two port
values are always different. -/
theorem client_peer_ports_two_calls_distinct
    (env : Env) (path : String) (last : Nat) (r : Result) (cp pp : Nat)
    (h : NewEmbeddedEtcdInstance env path last = some r)
    (hcp : r.clientPort = some cp) (hpp : r.peerPort = some pp) :
    getFreePort env.net last = (some cp, cp) ∧
      getFreePort env.net cp = (some pp, pp) ∧ cp ≠ pp := by
  obtain ⟨cp', pp', h1, h2, hcase⟩ :=
    NewEmbeddedEtcdInstance_cases env path last r h
  have hfields : r.clientPort = some cp' ∧ r.peerPort = some pp' := by
    rcases hcase with ⟨e, _, rfl⟩ | ⟨_, _, rfl⟩ | ⟨_, _, rfl⟩ <;>
      simp [launchFailResult, successResult, timeoutResult]
  obtain ⟨hc', hp'⟩ := hfields
  rw [hcp] at hc'
  rw [hpp] at hp'
  injection hc' with hc'
  injection hp' with hp'
  subst hc'
  subst hp'
  have s1 := getFreePort_some env.net last cp cp h1
  have s2 := getFreePort_some env.net cp pp pp h2
  refine ⟨h1, h2, ?_⟩
  have hlt : cp < 65535 := s1.2.2.1
  have hmod : (cp + 1) % U32 = cp + 1 := by
    apply Nat.mod_eq_of_lt
    unfold U32
    omega
  have hge := s2.2.1
  rw [hmod] at hge
  omega

/-- Witness for C4 at a concrete environment and input. -/
theorem client_peer_ports_two_calls_distinct_witness :
    getFreePort envGood.net 2379 = (some 2380, 2380) ∧
      getFreePort envGood.net 2380 = (some 2381, 2381) ∧
      (2380 : Nat) ≠ 2381 :=
  client_peer_ports_two_calls_distinct envGood "d" 2379
    (successResult 2380 2381 2381 (buildConfig "d" 2380 2381)) 2380 2381
    (by decide) (by decide) (by decide)

/-- C5: when the synchronous launch fails, the underlying error is returned
verbatim, descriptor and teardown handle are both nil, and the call's only
effect was the failed launch itself: no context is created and nothing is
closed. -/
theorem launch_error_verbatim_no_partial_resources
    (env : Env) (path : String) (last : Nat) (r : Result) (cfg : EmbedConfig)
    (e : String)
    (h : NewEmbeddedEtcdInstance env path last = some r)
    (hcfg : r.startCfg = some cfg) (hstart : env.startEtcd cfg = some e) :
    r.err = some e ∧ r.backend = none ∧ r.teardown = none ∧
      r.trace = [Ev.startEtcd] := by
  obtain ⟨cp, pp, h1, h2, hcase⟩ :=
    NewEmbeddedEtcdInstance_cases env path last r h
  rcases hcase with ⟨e', hs, rfl⟩ | ⟨hs, hr, rfl⟩ | ⟨hs, hr, rfl⟩
  · simp only [launchFailResult] at hcfg
    injection hcfg with hcfg
    subst hcfg
    rw [hstart] at hs
    injection hs with hs
    subst hs
    simp [launchFailResult]
  · simp only [successResult] at hcfg
    injection hcfg with hcfg
    subst hcfg
    rw [hstart] at hs
    exact Option.noConfusion hs
  · simp only [timeoutResult] at hcfg
    injection hcfg with hcfg
    subst hcfg
    rw [hstart] at hs
    exact Option.noConfusion hs

/-- Witness for C5 at a concrete environment and input. -/
theorem launch_error_verbatim_no_partial_resources_witness :
    (launchFailResult 2380 2381 2381 (buildConfig "d" 2380 2381)
        "etcdserver: failure").err = some "etcdserver: failure" ∧
      (launchFailResult 2380 2381 2381 (buildConfig "d" 2380 2381)
        "etcdserver: failure").backend = none ∧
      (launchFailResult 2380 2381 2381 (buildConfig "d" 2380 2381)
        "etcdserver: failure").teardown = none ∧
      (launchFailResult 2380 2381 2381 (buildConfig "d" 2380 2381)
        "etcdserver: failure").trace = [Ev.startEtcd] :=
  launch_error_verbatim_no_partial_resources envLaunchFail "d" 2379
    (launchFailResult 2380 2381 2381 (buildConfig "d" 2380 2381)
      "etcdserver: failure")
    (buildConfig "d" 2380 2381) "etcdserver: failure"
    (by decide) (by decide) (by decide)

/-- C6: a returning `getFreePort` call follows the increment-probe-repeat
algorithm: its candidate sequence starts at the atomically incremented cursor
(`last + 1`), the returned port is the first candidate whose bind-and-close
probe succeeds (every earlier candidate failed), the cursor was mutated only
by the increments and finishes at the returned port, and so it advanced
strictly monotonically over the call. -/
theorem getFreePort_first_free_monotone (env : NetEnv) (last p last2 : Nat)
    (hw : last + 1 < U32) (h : getFreePort env last = (some p, last2)) :
    probeOk env p = true ∧ last + 1 ≤ p ∧
      (∀ q, last + 1 ≤ q → q < p → probeOk env q = false) ∧
      last2 = p ∧ last < last2 := by
  obtain ⟨h1, h2, h3, h4, h5⟩ := getFreePort_some env last p last2 h
  rw [Nat.mod_eq_of_lt hw] at h2 h5
  exact ⟨h1, h2, h5, h4, by omega⟩

/-- Witness for C6 at a concrete environment and input. -/
theorem getFreePort_first_free_monotone_witness :
    probeOk netAllFree 2380 = true ∧ 2379 + 1 ≤ 2380 ∧
      (∀ q, 2379 + 1 ≤ q → q < 2380 → probeOk netAllFree q = false) ∧
      2380 = 2380 ∧ 2379 < 2380 :=
  getFreePort_first_free_monotone netAllFree 2379 2380 2380 (by decide)
    (by decide)

/-- C7: on success the returned teardown closure first cancels the
descriptor's context and then closes the embedded instance, and the
descriptor's context is still live (uncanceled) when the call returns: the
call itself never cancels it. -/
theorem teardown_cancels_then_closes_context_live
    (env : Env) (path : String) (last : Nat) (r : Result) (b : BackendConfig)
    (h : NewEmbeddedEtcdInstance env path last = some r)
    (hb : r.backend = some b) :
    r.teardown = some [Ev.cancelCtx, Ev.closeEtcd] ∧
      b.ctx.canceled = false ∧ Ev.cancelCtx ∉ r.trace := by
  obtain ⟨cp, pp, h1, h2, hcase⟩ :=
    NewEmbeddedEtcdInstance_cases env path last r h
  rcases hcase with ⟨e, hs, rfl⟩ | ⟨hs, hr, rfl⟩ | ⟨hs, hr, rfl⟩
  · exact absurd hb (by simp [launchFailResult])
  · simp only [successResult] at hb
    injection hb with hb
    subst hb
    simp [successResult]
  · exact absurd hb (by simp [timeoutResult])

/-- Witness for C7 at a concrete environment and input. -/
theorem teardown_cancels_then_closes_context_live_witness :
    (successResult 2380 2381 2381 (buildConfig "d" 2380 2381)).teardown =
        some [Ev.cancelCtx, Ev.closeEtcd] ∧
      backendGood.ctx.canceled = false ∧
      Ev.cancelCtx ∉
        (successResult 2380 2381 2381 (buildConfig "d" 2380 2381)).trace :=
  teardown_cancels_then_closes_context_live envGood "d" 2379
    (successResult 2380 2381 2381 (buildConfig "d" 2380 2381)) backendGood
    (by decide) (by decide)

/-- C8: in any interleaved execution of `n` goroutines concurrently calling
`getFreePort` (each candidate drawn by that goroutine's own atomic increment
of the shared cursor, which only advances and never wraps over the run), the
ports returned to two distinct goroutines are always distinct. -/
theorem concurrent_allocations_pairwise_distinct (env : NetEnv) {n : Nat}
    (sched : List (Fin n)) (c0 : Nat) (t u : Fin n) (p q : Nat)
    (hw : c0 + sched.length < U32) (hne : t ≠ u)
    (ht : (allocRun env sched (initAlloc n c0)).threads t = TState.done p)
    (hu : (allocRun env sched (initAlloc n c0)).threads u = TState.done q) :
    p ≠ q := by
  have hb : PortsBounded (initAlloc n c0) := by
    intro t1 p1 hp1
    exact absurd hp1 (by simp [initAlloc])
  have hd : PortsDistinct (initAlloc n c0) := by
    intro t1 t2 p1 q1 _ hp1 _
    exact absurd hp1 (by simp [initAlloc])
  have hrun := allocRun_inv env sched (initAlloc n c0)
    (by simpa [initAlloc] using hw) hb hd
  exact hrun.2 t u p q hne ht hu

/-- Witness for C8: a two-goroutine schedule on a fully free network. -/
theorem concurrent_allocations_pairwise_distinct_witness :
    (allocRun netAllFree [(0 : Fin 2), 1] (initAlloc 2 2379)).threads 0 =
        TState.done 2380 ∧
      (allocRun netAllFree [(0 : Fin 2), 1] (initAlloc 2 2379)).threads 1 =
        TState.done 2381 ∧
      (2380 : Nat) ≠ 2381 :=
  ⟨by decide, by decide,
    @concurrent_allocations_pairwise_distinct netAllFree 2 [0, 1] 2379 0 1
      2380 2381 (by decide) (by decide) (by decide) (by decide)⟩

/-- C9: with the cursor at or above its initial value 2379 (`defaultEtcdPort`),
every port `getFreePort` returns is at least 2380 (the base port itself is
never returned, the cursor being incremented before the first probe) and at
most 65534 (65535 is never probed). -/
theorem allocated_port_bounds (env : NetEnv) (last p last2 : Nat)
    (hbase : defaultEtcdPort ≤ last) (hw : last + 1 < U32)
    (h : getFreePort env last = (some p, last2)) :
    2380 ≤ p ∧ p ≤ 65534 := by
  obtain ⟨_, h2, h3, _, _⟩ := getFreePort_some env last p last2 h
  rw [Nat.mod_eq_of_lt hw] at h2
  unfold defaultEtcdPort at hbase
  omega

/-- Witness for C9 at a concrete environment and input. -/
theorem allocated_port_bounds_witness :
    2380 ≤ 2380 ∧ 2380 ≤ 65534 :=
  allocated_port_bounds netAllFree 2379 2380 2380 (by decide) (by decide)
    (by decide)

/-- C10: every reached startup configuration is built from the same fixed
constants: the caller's path as storage directory, `MaxTxnOps = 8192`,
`MaxRequestBytes = 16384*1024`, and singleton client and peer listen URLs on
`127.0.0.1` at the two freshly allocated ports. -/
theorem startup_config_fixed_constants
    (env : Env) (path : String) (last : Nat) (r : Result) (cfg : EmbedConfig)
    (cp pp : Nat)
    (h : NewEmbeddedEtcdInstance env path last = some r)
    (hcfg : r.startCfg = some cfg)
    (hcp : r.clientPort = some cp) (hpp : r.peerPort = some pp) :
    cfg.dir = path ∧ cfg.maxTxnOps = 8192 ∧
      cfg.maxRequestBytes = 16384 * 1024 ∧
      cfg.lcUrls = [{ host := addrString cp }] ∧
      cfg.lpUrls = [{ host := addrString pp }] := by
  obtain ⟨cp', pp', h1, h2, hcase⟩ :=
    NewEmbeddedEtcdInstance_cases env path last r h
  have hfields : r.startCfg = some (buildConfig path cp' pp') ∧
      r.clientPort = some cp' ∧ r.peerPort = some pp' := by
    rcases hcase with ⟨e, _, rfl⟩ | ⟨_, _, rfl⟩ | ⟨_, _, rfl⟩ <;>
      simp [launchFailResult, successResult, timeoutResult]
  obtain ⟨hc1, hc2, hc3⟩ := hfields
  rw [hcfg] at hc1
  rw [hcp] at hc2
  rw [hpp] at hc3
  injection hc1 with hc1
  injection hc2 with hc2
  injection hc3 with hc3
  subst hc1
  subst hc2
  subst hc3
  simp [buildConfig]

/-- Witness for C10 at a concrete environment and input. -/
theorem startup_config_fixed_constants_witness :
    (buildConfig "d" 2380 2381).dir = "d" ∧
      (buildConfig "d" 2380 2381).maxTxnOps = 8192 ∧
      (buildConfig "d" 2380 2381).maxRequestBytes = 16384 * 1024 ∧
      (buildConfig "d" 2380 2381).lcUrls = [{ host := addrString 2380 }] ∧
      (buildConfig "d" 2380 2381).lpUrls = [{ host := addrString 2381 }] :=
  startup_config_fixed_constants envGood "d" 2379
    (successResult 2380 2381 2381 (buildConfig "d" 2380 2381))
    (buildConfig "d" 2380 2381) 2380 2381
    (by decide) (by decide) (by decide) (by decide)

end EtcdEmbed
